import Mathlib

/-!
Shallow embedding of the skatehive-ops dashboard core:
`src/config.py`, `src/monitors/service_monitor.py` and
`src/panels/hive_stats_panel.py`.

Python JSON values (the result of `json.loads` / `response.json()`) are
modelled by `JVal`.  JSON numbers are modelled as rationals, which
identifies a Python int with the numerically equal float; the distinction
is immaterial to the properties proved here.  Fallible Python code is
modelled with `Except` / `Option`; network and subprocess effects are
modelled as explicit outcome parameters.
-/

namespace SkatehiveOps

/-- A JSON value, as produced by `json.loads`.  Dicts keep insertion order,
as Python dicts do. -/
inductive JVal where
  | null
  | bool (b : Bool)
  | num (q : ℚ)
  | str (s : String)
  | list (xs : List JVal)
  | dict (kvs : List (String × JVal))

/-- First binding of a key in a Python dict (keys are unique in dicts
produced by `json.loads`; lookup returns the first binding). -/
def pyGet (kvs : List (String × JVal)) (k : String) : Option JVal :=
  match kvs with
  | [] => none
  | (k2, v) :: rest => if k2 = k then some v else pyGet rest k

/-- Python `d.get(k, default)`. -/
def pyGetD (kvs : List (String × JVal)) (k : String) (d : JVal) : JVal :=
  (pyGet kvs k).getD d

/-- Python truthiness of a JSON value. -/
def pyTruthy : JVal → Bool
  | .null => false
  | .bool b => b
  | .num q => q != 0
  | .str s => s != ""
  | .list xs => !xs.isEmpty
  | .dict kvs => !kvs.isEmpty

/-- The single-quote character, as used by Python `repr` of strings. -/
def squote : String := String.singleton (Char.ofNat 39)

/-- Whether the first list is a prefix of the second. -/
def listPrefix : List Char → List Char → Bool
  | [], _ => true
  | _ :: _, [] => false
  | p :: ps, c :: cs => p == c && listPrefix ps cs

/-- Whether `pat` occurs at some position of the character list. -/
def subAt (pat : List Char) : List Char → Bool
  | [] => listPrefix pat []
  | c :: cs => listPrefix pat (c :: cs) || subAt pat cs

/-- Python substring containment `pat in s`. -/
def strContainsSub (s pat : String) : Bool := subAt pat.toList s.toList

/-- Python `s.strip()`: drop whitespace from both ends. -/
def pyStrip (s : String) : String :=
  String.mk (((s.toList.dropWhile Char.isWhitespace).reverse.dropWhile Char.isWhitespace).reverse)

/-- Python `s.lower()` (ASCII, which covers every string inspected by the
source). -/
def pyLower (s : String) : String :=
  String.mk (s.toList.map Char.toLower)

/-- Python `s[:n]`. -/
def pyTake (s : String) (n : Nat) : String :=
  String.mk (s.toList.take n)

/-- Split on every character satisfying `p`, keeping empty pieces, like
Python `s.split(sep)` for a one-character separator. -/
def splitOnP (p : Char → Bool) : List Char → List (List Char)
  | [] => [[]]
  | x :: xs =>
    if p x then [] :: splitOnP p xs
    else
      match splitOnP p xs with
      | h :: t => (x :: h) :: t
      | [] => [[x]]

/-- Python `s.split(c)` for a single-character separator. -/
def pySplitChar (s : String) (c : Char) : List String :=
  (splitOnP (fun x => x == c) s.toList).map String.mk

/-- Replacement engine for `pyReplace`, fuelled by the input length. -/
def replaceSubAux (pat repl : List Char) : Nat → List Char → List Char
  | 0, cs => cs
  | _ + 1, [] => []
  | fuel + 1, c :: cs =>
    if listPrefix pat (c :: cs) then repl ++ replaceSubAux pat repl fuel (cs.drop (pat.length - 1))
    else c :: replaceSubAux pat repl fuel cs

/-- Python `s.replace(pat, repl)` for a nonempty pattern (the source only
replaces a fixed nonempty literal). -/
def pyReplace (s pat repl : String) : String :=
  if pat.toList.isEmpty then s
  else String.mk (replaceSubAux pat.toList repl.toList s.toList.length s.toList)

/-- Tail of a Python digit run: digits with single underscores between
digits (the run must not end in an underscore). -/
def digitsUTail : List Char → Bool
  | [] => true
  | c :: cs =>
    if c = Char.ofNat 95 then
      match cs with
      | [] => false
      | d :: ds => d.isDigit && digitsUTail ds
    else c.isDigit && digitsUTail cs

/-- A nonempty Python digit run: starts with a digit, single underscores
allowed between digits. -/
def digitsUnderscore : List Char → Bool
  | [] => false
  | c :: cs => c.isDigit && digitsUTail cs

/-- Numeric value of a digit run, ignoring underscores. -/
def natOfDigits (cs : List Char) : Nat :=
  cs.foldl (fun acc c => if c.isDigit then acc * 10 + (c.toNat - 48) else acc) 0

/-- Python `int(s)` on a string: surrounding whitespace stripped, optional
sign, then decimal digits with single underscores between digits.
`none` models `ValueError`. -/
def pythonInt (s : String) : Option Int :=
  let t := pyStrip s
  match t.toList with
  | [] => none
  | c :: cs =>
    if c = '+' then (if digitsUnderscore cs then some (natOfDigits cs : Int) else none)
    else if c = '-' then (if digitsUnderscore cs then some (-(natOfDigits cs : Int)) else none)
    else if digitsUnderscore (c :: cs) then some (natOfDigits (c :: cs) : Int) else none

/-- Splits a character list at the first character satisfying `p`;
the second component is `none` when no such character occurs. -/
def splitAtChar (p : Char → Bool) : List Char → List Char × Option (List Char)
  | [] => ([], none)
  | c :: cs =>
    if p c then ([], some cs)
    else
      let (a, b) := splitAtChar p cs
      (c :: a, b)

/-- Value of a Python digit run, or `none` if the run is malformed. -/
def digitsVal (cs : List Char) : Option Nat :=
  if digitsUnderscore cs then some (natOfDigits cs) else none

/-- Unsigned Python float literal body: `d[.d]`, `.d`, `d.`, with an
optional decimal exponent.  (`inf` / `nan` are not modelled; no theorem
below depends on them.) -/
def parseUFloat (cs : List Char) : Option ℚ :=
  let me := splitAtChar (fun c => c == 'e' || c == 'E') cs
  let mantVal : Option ℚ :=
    let mf := splitAtChar (fun c => c == '.') me.1
    match mf.2 with
    | none => (digitsVal mf.1).map (fun n => (n : ℚ))
    | some fp =>
      match mf.1, fp with
      | [], [] => none
      | [], _ => (digitsVal fp).map (fun n => (n : ℚ) / (10 : ℚ) ^ (fp.countP Char.isDigit))
      | ip, [] => (digitsVal ip).map (fun n => (n : ℚ))
      | ip, _ =>
        match digitsVal ip, digitsVal fp with
        | some a, some b => some ((a : ℚ) + (b : ℚ) / (10 : ℚ) ^ (fp.countP Char.isDigit))
        | _, _ => none
  match me.2 with
  | none => mantVal
  | some ecs =>
    let signBody : Bool × List Char :=
      match ecs with
      | c :: rest =>
        if c = '+' then (false, rest) else if c = '-' then (true, rest) else (false, ecs)
      | [] => (false, [])
    match mantVal, digitsVal signBody.2 with
    | some m, some e =>
      some (m * (10 : ℚ) ^ (if signBody.1 then -(e : ℤ) else (e : ℤ)))
    | _, _ => none

/-- Python `float(s)`: surrounding whitespace stripped, optional sign,
then an unsigned float literal.  `none` models `ValueError`. -/
def pythonFloat (s : String) : Option ℚ :=
  let t := pyStrip s
  match t.toList with
  | [] => none
  | c :: cs =>
    if c = '+' then parseUFloat cs
    else if c = '-' then (parseUFloat cs).map (fun q => -q)
    else parseUFloat (c :: cs)

mutual
/-- Python `repr` of a JSON value.  Non-integer rationals are printed in
fraction form rather than Python float form; no theorem below depends on
the rendering of non-integer numbers. -/
def pyRepr : JVal → String
  | .null => "None"
  | .bool b => if b then "True" else "False"
  | .num q => if q.den = 1 then toString q.num else toString q
  | .str s => squote ++ s ++ squote
  | .list xs => "[" ++ pyReprList xs ++ "]"
  | .dict kvs => "\x7b" ++ pyReprPairs kvs ++ "\x7d"

/-- Comma-separated reprs of list elements. -/
def pyReprList : List JVal → String
  | [] => ""
  | [x] => pyRepr x
  | x :: y :: rest => pyRepr x ++ ", " ++ pyReprList (y :: rest)

/-- Comma-separated reprs of dict entries. -/
def pyReprPairs : List (String × JVal) → String
  | [] => ""
  | [(k, v)] => squote ++ k ++ squote ++ ": " ++ pyRepr v
  | (k, v) :: p :: rest =>
    squote ++ k ++ squote ++ ": " ++ pyRepr v ++ ", " ++ pyReprPairs (p :: rest)
end

/-- Python `str()` of a JSON value (as used in f-strings). -/
def pyStr : JVal → String
  | .str s => s
  | v => pyRepr v

/-- Python `str()` of a list of strings, e.g. the `Keys: [...]` rendering
in `fetch_hive_stats`. -/
def pyStrKeys (ks : List String) : String :=
  "[" ++ pyReprList (ks.map JVal.str) ++ "]"

/-! ## Health checker (`src/monitors/service_monitor.py`) -/

/-- A Python exception escaping `check_service_health` (the surrounding
code catches only `requests.exceptions.RequestException` and, inside the
`json_key` branch, `ValueError`). -/
inductive PyExc where
  | keyError (k : String)
  | typeError
  | attributeError
deriving DecidableEq, Repr

/-- Short text of an exception, used where the source interpolates
`str(e)` for exceptions whose exact message is environment-dependent. -/
def pyExcText : PyExc → String
  | .keyError k => "KeyError: " ++ squote ++ k ++ squote
  | .typeError => "TypeError"
  | .attributeError => "AttributeError"

/-- An `expected_value` as it occurs in the service registry built by
`ServiceMonitor.__init__` (a string, a boolean, or Python `None` for the
`.get` default when a service dict lacks the key). -/
inductive EVal where
  | str (s : String)
  | bool (b : Bool)
  | none_
deriving DecidableEq, Repr

/-- Python `==` between a JSON value and an expected value.  Python bools
are ints, so `True == 1` and `False == 0`; a string never equals a bool
or a number; JSON `null` equals Python `None`. -/
def pyEqE : JVal → EVal → Bool
  | .str a, .str b => a == b
  | .bool a, .bool b => a == b
  | .num n, .bool b => n == (if b then (1 : ℚ) else 0)
  | .null, .none_ => true
  | _, _ => false

/-- Python `str()` of an expected value. -/
def pyStrE : EVal → String
  | .str s => s
  | .bool b => if b then "True" else "False"
  | .none_ => "None"

/-- Python `==` between the expected key (`None` when absent) and a list
element, as evaluated by `expected_key in data` when `data` is a list. -/
def keyEqJ : Option String → JVal → Bool
  | some s, .str t => s == t
  | none, .null => true
  | _, _ => false

/-- One entry of `ServiceMonitor.services`. Field defaults model the
`.get(…, default)` calls on absent dict keys. -/
structure Service where
  url : String := ""
  port : Int := 0
  container : String := ""
  check_type : String := "http_status"
  expected_key : Option String := none
  expected_value : EVal := .none_
  expected_status : Option Int := none
  remote : Bool := false
  node_name : Option String := none
  tailscale_name : Option String := none
deriving DecidableEq, Repr

/-- The dict returned by `check_service_health`. -/
structure HealthResult where
  status : String
  response_time : String
  uptime : String
  details : String
deriving DecidableEq, Repr

/-- The dict returned by `check_tailscale_device`. -/
structure DeviceStatus where
  online : Bool
  status : String
  uptime : String
  last_seen : Option JVal := none

/-- Outcome of the `subprocess.run(["tailscale", "status", "--json"], …)`
call in `check_tailscale_device`: a timeout, some other exception while
spawning, or a completed run with a return code and (when the code is
used) the `json.loads` result of its stdout. -/
inductive TailscaleCmd where
  | timedOut
  | excOther (msg : String)
  | ran (returncode : Int) (stdout : Except String JVal)

/-- Outcome of `requests.get(service["url"], timeout=10)`: either a
response (status code, `response.json()` result where `.error` models a
`ValueError` from JSON parsing, elapsed milliseconds) or a
`requests.exceptions.RequestException` with its message. -/
inductive HttpOutcome where
  | response (status_code : Int) (body : Except String JVal) (elapsed_ms : Nat)
  | requestError (msg : String)

/-- The ambient effects one `check_service_health` call can observe: the
HTTP probe outcome, the tailscale status command outcome, and the string
`get_container_uptime` would return. -/
structure Env where
  http : HttpOutcome
  ts : TailscaleCmd := .ran 1 (.error "unused")
  uptime : String := "Unknown"

/-- The `for peer_id, peer_info in tailscale_data.get("Peer", {}).items()`
loop: returns the first peer dict whose `HostName` equals the device name,
`Except.error` when a peer entry is not a dict (`.get` raises). -/
def findPeerLoop : List (String × JVal) → Option String → Except PyExc (Option (List (String × JVal)))
  | [], _ => .ok none
  | (_, info) :: rest, device_name =>
    match info with
    | .dict ikvs =>
      let hostMatch :=
        match pyGet ikvs "HostName", device_name with
        | none, none => true
        | some .null, none => true
        | some (.str s), some d => s == d
        | _, _ => false
      if hostMatch then .ok (some ikvs) else findPeerLoop rest device_name
    | _ => .error .attributeError

/-- `ServiceMonitor.check_tailscale_device`.  Every exception inside the
function body is caught; `subprocess.TimeoutExpired` and the generic
handler produce the two error-status strings of the source. -/
def checkTailscaleDevice (cmd : TailscaleCmd) (device_name : Option String) : DeviceStatus :=
  match cmd with
  | .timedOut => ⟨false, "tailscale status timeout", "N/A", none⟩
  | .excOther m => ⟨false, "error checking tailscale: " ++ pyTake m 50, "N/A", none⟩
  | .ran rc out =>
    if rc != 0 then ⟨false, "tailscale command failed", "N/A", none⟩
    else
      match out with
      | .error e => ⟨false, "error checking tailscale: " ++ pyTake e 50, "N/A", none⟩
      | .ok data =>
        match data with
        | .dict kvs =>
          match pyGetD kvs "Peer" (.dict []) with
          | .dict ps =>
            match findPeerLoop ps device_name with
            | .error e =>
              ⟨false, "error checking tailscale: " ++ pyTake (pyExcText e) 50, "N/A", none⟩
            | .ok (some ikvs) =>
              let last_seen := pyGet ikvs "LastSeen"
              if pyTruthy (pyGetD ikvs "Online" (.bool false)) then
                ⟨true, "active", "Active", last_seen⟩
              else
                ⟨false, "offline", "N/A", last_seen⟩
            | .ok none => ⟨false, "device not found in tailscale network", "N/A", none⟩
          | _ =>
            ⟨false, "error checking tailscale: " ++ pyTake (pyExcText .attributeError) 50, "N/A", none⟩
        | _ =>
          ⟨false, "error checking tailscale: " ++ pyTake (pyExcText .attributeError) 50, "N/A", none⟩

/-- The request-exception detail classification of `check_service_health`
(lines 379–391): substring checks in source order, with remote services
getting node-qualified messages. -/
def classifyRequestError (error_msg : String) (is_remote : Bool) (node_name : String) : String :=
  if strContainsSub error_msg "SSL" || strContainsSub error_msg "ssl" then
    if is_remote then "Funnel down (" ++ node_name ++ ")" else "SSL error"
  else if strContainsSub (pyLower error_msg) "timeout" then
    if is_remote then "Funnel timeout (" ++ node_name ++ ")" else "Connection timeout"
  else if strContainsSub (pyLower error_msg) "connection" then
    if is_remote then "Funnel offline (" ++ node_name ++ ")" else "Connection refused"
  else
    if is_remote then "Unreachable (" ++ node_name ++ ")" else "Network error: " ++ pyTake error_msg 30

/-- The `json_key` branch of `check_service_health` after a 200 response
whose body parsed as JSON.  A non-dict body raises: `expected_key in data`
is a `TypeError` on numbers/booleans/null, and on strings/lists a hit
raises `TypeError` at `data[expected_key]` while a miss raises
`AttributeError` at `data.get(…)`. -/
def jsonKeyCheck (svc : Service) (data : JVal) (response_time uptime : String) :
    Except PyExc (Option HealthResult) :=
  let keyName := match svc.expected_key with | some k => k | none => "None"
  match data with
  | .dict kvs =>
    match (match svc.expected_key with | some k => pyGet kvs k | none => none) with
    | some v =>
      if pyEqE v svc.expected_value then
        .ok (some ⟨"🟢 Healthy", response_time, uptime,
          "JSON OK: " ++ keyName ++ "=" ++ pyStr v⟩)
      else
        .ok (some ⟨"🔴 Down", response_time, "N/A",
          "JSON fail: " ++ keyName ++ "=" ++ pyStr v ++
            " (expected " ++ pyStrE svc.expected_value ++ ")"⟩)
    | none =>
      .ok (some ⟨"🔴 Down", response_time, "N/A",
        "JSON fail: " ++ keyName ++ "=missing (expected " ++ pyStrE svc.expected_value ++ ")"⟩)
  | .str s =>
    match svc.expected_key with
    | some k => if strContainsSub s k then .error .typeError else .error .attributeError
    | none => .error .typeError
  | .list xs =>
    if xs.any (fun v => keyEqJ svc.expected_key v) then .error .typeError
    else .error .attributeError
  | _ => .error .typeError

/-- `ServiceMonitor.check_service_health` after the registry lookup
succeeded (the body of the `try`/`except` region, lines 247–398). -/
def checkServiceHealthSvc (svc : Service) (env : Env) : Except PyExc (Option HealthResult) :=
  match env.http with
  | .response code body ems =>
    let response_time := toString ems ++ "ms"
    if svc.check_type == "http_status" then
      let expected_status := svc.expected_status.getD 200
      if code == expected_status then
        .ok (some ⟨"🟢 Healthy", response_time, env.uptime, "HTTP " ++ toString code⟩)
      else
        .ok (some ⟨"🔴 Down", response_time, "N/A",
          "HTTP " ++ toString code ++ " (expected " ++ toString expected_status ++ ")"⟩)
    else if svc.check_type == "json_key" then
      if code == 200 then
        match body with
        | .error _ => .ok (some ⟨"🔴 Down", response_time, "N/A", "Invalid JSON response"⟩)
        | .ok data => jsonKeyCheck svc data response_time env.uptime
      else
        .ok (some ⟨"🔴 Down", response_time, "N/A", "HTTP " ++ toString code⟩)
    else if svc.check_type == "tailscale_device" then
      let ds := checkTailscaleDevice env.ts svc.tailscale_name
      if !ds.online then
        .ok (some ⟨"🔴 Offline", "N/A", "N/A", "Tailscale device offline: " ++ ds.status⟩)
      else if code == 200 then
        match body with
        | .ok _ =>
          .ok (some ⟨"🟢 Online + Service Healthy", response_time, ds.uptime,
            "Device online, service responding"⟩)
        | .error _ =>
          .ok (some ⟨"🟡 Online + Service Limited", response_time, ds.uptime,
            "Device online, HTTP " ++ toString code⟩)
      else
        .ok (some ⟨"🟡 Online + Service Down", response_time, ds.uptime,
          "Device online, HTTP " ++ toString code⟩)
    else
      -- an unrecognized check type falls off the end of the `try` block:
      -- Python implicitly returns None
      .ok none
  | .requestError msg =>
    if svc.check_type == "tailscale_device" then
      let ds := checkTailscaleDevice env.ts svc.tailscale_name
      if ds.online then
        let details :=
          if strContainsSub (pyLower msg) "timeout" then "Device online, service timeout"
          else if strContainsSub (pyLower msg) "connection" then "Device online, service unreachable"
          else "Device online, service error: " ++ pyTake msg 30
        .ok (some ⟨"🟡 Online + Service Down", "N/A", ds.uptime, details⟩)
      else
        .ok (some ⟨"🔴 Offline", "N/A", "N/A", "Tailscale device offline: " ++ ds.status⟩)
    else
      .ok (some ⟨"🔴 Down", "N/A", "N/A",
        classifyRequestError msg svc.remote (svc.node_name.getD "Unknown")⟩)

/-- One entry of `SKATEHIVE_NODES` (`src/config.py`). -/
structure NodeInfo where
  name : String
  hostname : String
  role : String
  lan_ip : Option String := none
  instagram_port : Option Int := none
  video_port : Option Int := none
deriving DecidableEq, Repr

/-- Python dict lookup in the service registry; first binding wins. -/
def lookupService : List (String × Service) → String → Option Service
  | [], _ => none
  | (k, v) :: rest, n => if k = n then some v else lookupService rest n

/-- The service registry built by `ServiceMonitor.__init__`: two local
`json_key` services when a tailscale hostname is configured, plus two
remote `json_key` services per known node whose hostname is nonempty and
differs from the local hostname. -/
def buildServices (tailscale_hostname instagram_funnel_path video_funnel_path : String)
    (instagram_port video_port : Int) (nodes : List (String × NodeInfo)) :
    List (String × Service) :=
  let base_url := if tailscale_hostname != "" then "https://" ++ tailscale_hostname else ""
  let localServices : List (String × Service) :=
    if tailscale_hostname != "" then
      [ ("ytipfs-worker",
          { url := base_url ++ instagram_funnel_path ++ "/health",
            port := instagram_port, container := "ytipfs-worker",
            check_type := "json_key", expected_key := some "status",
            expected_value := .str "ok" }),
        ("video-worker",
          { url := base_url ++ video_funnel_path ++ "/healthz",
            port := video_port, container := "video-worker",
            check_type := "json_key", expected_key := some "ok",
            expected_value := .bool true }) ]
    else []
  localServices ++
    nodes.foldr (fun nodeEntry acc =>
      let node_id := nodeEntry.1
      let info := nodeEntry.2
      if info.hostname != "" && info.hostname != tailscale_hostname then
        (node_id ++ "-video",
          { url := "https://" ++ info.hostname ++ video_funnel_path ++ "/healthz",
            port := 443, container := node_id ++ "-video-worker",
            check_type := "json_key", expected_key := some "ok",
            expected_value := .bool true, remote := true,
            node_name := some info.name }) ::
        (node_id ++ "-instagram",
          { url := "https://" ++ info.hostname ++ instagram_funnel_path ++ "/health",
            port := 443, container := node_id ++ "-ytipfs-worker",
            check_type := "json_key", expected_key := some "status",
            expected_value := .str "ok", remote := true,
            node_name := some info.name }) :: acc
      else acc) []

/-- `ServiceMonitor.check_service_health`: the registry lookup
`self.services[service_name]` happens before the `try` block, so an
unregistered name raises `KeyError`. -/
def checkServiceHealth (services : List (String × Service)) (name : String) (env : Env) :
    Except PyExc (Option HealthResult) :=
  match lookupService services name with
  | none => .error (.keyError name)
  | some svc => checkServiceHealthSvc svc env

/-! ## Speed test runner (`run_speed_test_async`) -/

/-- An exception inside the speed-test JSON-handling block (caught by its
`except Exception`). -/
inductive SpeedExc where
  | keyError (k : String)
  | typeError
  | attributeError
  | indexError
  | valueError (lit : String)
deriving DecidableEq, Repr

/-- Short text of a speed-test parse exception (interpolated where the
source formats the interpolated JSON-parse-error Python f-string; exact Python messages are
environment-dependent and unexercised by the theorems below). -/
def speedExcText : SpeedExc → String
  | .keyError k => "KeyError: " ++ squote ++ k ++ squote
  | .typeError => "TypeError"
  | .attributeError => "AttributeError"
  | .indexError => "IndexError"
  | .valueError lit => "ValueError: " ++ lit

/-- Python `k in v`: key membership for dicts, substring for strings,
element membership for lists, `TypeError` otherwise. -/
def pyIn (k : String) : JVal → Except SpeedExc Bool
  | .dict kvs => .ok (pyGet kvs k).isSome
  | .str s => .ok (strContainsSub s k)
  | .list xs => .ok (xs.any fun v => keyEqJ (some k) v)
  | _ => .error .typeError

/-- Python `v[k]` with a string key: dict lookup (`KeyError` on a miss),
`TypeError` on any other value. -/
def pyIndex (v : JVal) (k : String) : Except SpeedExc JVal :=
  match v with
  | .dict kvs =>
    match pyGet kvs k with
    | some x => .ok x
    | none => .error (.keyError k)
  | _ => .error .typeError

/-- Python `v.get(k, d)`: `AttributeError` on non-dicts. -/
def pyGetMethod (v : JVal) (k : String) (d : JVal) : Except SpeedExc JVal :=
  match v with
  | .dict kvs => .ok (pyGetD kvs k d)
  | _ => .error .attributeError

/-- Numeric value of a JSON value for Python arithmetic: numbers and
booleans (Python bools are ints), `TypeError` otherwise. -/
def pyToNum : JVal → Except SpeedExc ℚ
  | .num q => .ok q
  | .bool b => .ok (if b then 1 else 0)
  | _ => .error .typeError

/-- Python `isinstance(v, (int, float))` (true for bools, which subclass
int). -/
def isNumLike : JVal → Bool
  | .num _ => true
  | .bool _ => true
  | _ => false

/-- Python `float(str(v).split()[0])`: stringify, split on whitespace
runs, take the first piece (`IndexError` when there is none), parse as a
float (`ValueError` on failure). -/
def pyFloatOfHead (v : JVal) : Except SpeedExc ℚ :=
  let pieces := ((pyStr v).split Char.isWhitespace).filter (fun p => p != "")
  match pieces with
  | [] => .error .indexError
  | p :: _ =>
    match pythonFloat p with
    | some q => .ok q
    | none => .error (.valueError p)

/-- The JSON-shape handling of `run_speed_test_async` (lines 182–207):
three recognized shapes, locals initialized to 0 so an unrecognized shape
yields a zero measurement.  Returns (download, upload, ping) as the
Python values that end up in `self.internet_speed`. -/
def parseSpeedData (data : JVal) : Except SpeedExc (JVal × JVal × JVal) := do
  let c1 ← do
    let b1 ← pyIn "download" data
    if b1 then
      let dl ← pyIndex data "download"
      pyIn "bandwidth" dl
    else pure false
  if c1 then
    let dl ← pyIndex data "download"
    let dlb ← pyIndex dl "bandwidth"
    let dq ← pyToNum dlb
    let ul ← pyIndex data "upload"
    let ulb ← pyIndex ul "bandwidth"
    let uq ← pyToNum ulb
    let png ← pyIndex data "ping"
    let lat ← pyIndex png "latency"
    pure (.num (dq * 8 / 1000000), .num (uq * 8 / 1000000), lat)
  else
    let c2 ← do
      let b1 ← pyIn "download" data
      if b1 then
        let dl ← pyIndex data "download"
        pure (isNumLike dl)
      else pure false
    if c2 then
      let dl ← pyIndex data "download"
      let dq ← pyToNum dl
      let ul ← pyIndex data "upload"
      let uq ← pyToNum ul
      let png ← pyIndex data "ping"
      pure (.num (dq / 1000000), .num (uq / 1000000), png)
    else
      let b1 ← pyIn "Download" data
      let c3 ← if b1 then pyIn "Upload" data else pure false
      if c3 then
        let d ← pyIndex data "Download"
        let dq ← pyFloatOfHead d
        let u ← pyIndex data "Upload"
        let uq ← pyFloatOfHead u
        let pd ← pyGetMethod data "Ping" (.str "0")
        let pq ← pyFloatOfHead pd
        pure (.num dq, .num uq, .num pq)
      else
        pure (.num 0, .num 0, .num 0)

/-- `self.internet_speed` (a Python dict with download/upload/ping). -/
structure SpeedPayload where
  download : JVal
  upload : JVal
  ping : JVal

/-- The speed-test fields of `ServiceMonitor`; defaults are the
`__init__` values. -/
structure SpeedState where
  internet_speed : SpeedPayload := ⟨.num 0, .num 0, .num 0⟩
  last_speed_test : Option Nat := none
  speedtest_status : String := "Initializing..."
  speedtest_error : Option String := none

/-- Outcome of attempting one candidate speed-test command: the binary is
absent (`FileNotFoundError`), some other spawn exception, the 120 s
`asyncio.wait_for` timeout, or an exited process with return code, the
`json.loads` result of its stdout (`.error` when that raises) and its
decoded stderr. -/
inductive CmdOutcome where
  | fileNotFound
  | execError (msg : String)
  | timedOut
  | exited (returncode : Int) (stdout : Except String JVal) (stderr : String)

/-- Python falsiness of the optional error string (`None` and `""`). -/
def errFalsy : Option String → Bool
  | none => true
  | some e => e == ""

/-- The candidate-command loop of `run_speed_test_async` plus the
all-candidates-failed epilogue (lines 164–242). -/
def runSpeedTestGo (now : Nat) : List CmdOutcome → SpeedState → SpeedState
  | [], s =>
    let s := { s with speedtest_status := "Failed" }
    if errFalsy s.speedtest_error then
      { s with speedtest_error := some "Speedtest command not found or not working" }
    else s
  | c :: rest, s =>
    match c with
    | .fileNotFound => runSpeedTestGo now rest s
    | .execError m => runSpeedTestGo now rest { s with speedtest_error := some m }
    | .timedOut => runSpeedTestGo now rest { s with speedtest_error := some "Test timeout (>2min)" }
    | .exited rc out stderrRaw =>
      if rc == 0 then
        match out with
        | .error e =>
          runSpeedTestGo now rest { s with speedtest_error := some ("JSON parse error: " ++ e) }
        | .ok data =>
          match parseSpeedData data with
          | .ok res =>
            { s with internet_speed := ⟨res.1, res.2.1, res.2.2⟩,
                     last_speed_test := some now,
                     speedtest_status := "Complete" }
          | .error e =>
            runSpeedTestGo now rest
              { s with speedtest_error := some ("JSON parse error: " ++ speedExcText e) }
      else
        let error_msg := pyStrip stderrRaw
        if strContainsSub error_msg "not found" || strContainsSub error_msg "command not found" then
          runSpeedTestGo now rest s
        else if strContainsSub error_msg "Timeout occurred" then
          runSpeedTestGo now rest { s with speedtest_error := some "Connection timeout" }
        else if strContainsSub error_msg "Error:" then
          let error_lines := (pySplitChar error_msg (Char.ofNat 10)).filter (fun l => strContainsSub l "Error:")
          match error_lines with
          | l :: _ =>
            runSpeedTestGo now rest
              { s with speedtest_error := some (pyStrip (pyReplace l "[error] Error: " "")) }
          | [] => runSpeedTestGo now rest { s with speedtest_error := some "Network error" }
        else
          runSpeedTestGo now rest
            { s with speedtest_error := some (if error_msg = "" then "Command failed" else error_msg) }

/-- `run_speed_test_async`: reset status and error, then try the
candidate commands in order. -/
def runSpeedTest (s : SpeedState) (cmds : List CmdOutcome) (now : Nat) : SpeedState :=
  runSpeedTestGo now cmds { s with speedtest_status := "Running test...", speedtest_error := none }

/-- The five candidate command lines of `run_speed_test_async`. -/
def commandsToTry : List (List String) :=
  [["speedtest", "--format=json"],
   ["speedtest", "--json"],
   ["speedtest-cli", "--json"],
   ["/usr/bin/speedtest", "--format=json"],
   ["/usr/local/bin/speedtest", "--format=json"]]

/-- Whether a candidate outcome leads to the success return of
`run_speed_test_async` (exit code 0, stdout parses as JSON, and the
shape-handling block raises nothing). -/
def outcomeSucceeds : CmdOutcome → Bool
  | .exited rc out _ =>
    rc == 0 &&
      (match out with
       | .ok data => (parseSpeedData data).toBool
       | .error _ => false)
  | _ => false

/-! ## Community stats fetcher (`fetch_hive_stats`) and panel gate -/

/-- The Hive-stats fields of `ServiceMonitor`; defaults are the
`__init__` values. -/
structure HiveState where
  hive_stats : JVal := .dict []
  last_hive_stats_fetch : Option Nat := none
  hive_stats_error : Option String := none

/-- Outcome of the stats HTTP request: a transport/read failure
(any exception other than `json.JSONDecodeError`), a JSON decode failure,
or a parsed payload. -/
inductive FetchOutcome where
  | urlError (msg : String)
  | jsonError (msg : String)
  | ok (data : JVal)

/-- The nested-shape scan of `fetch_hive_stats` (lines 120–125): the
first dict value one level down that contains `total_subscribers`. -/
def findNestedStats : List (String × JVal) → Option JVal
  | [] => none
  | (_, v) :: rest =>
    match v with
    | .dict ikvs =>
      if (pyGet ikvs "total_subscribers").isSome then some (.dict ikvs)
      else findNestedStats rest
    | _ => findNestedStats rest

/-- `<class '…'>` rendering of `type(data)` for f-strings.  A rational
with denominator 1 renders as int; json.loads floats that happen to be
integral are conflated with ints (unexercised by the theorems below). -/
def pyTypeRepr : JVal → String
  | .null => "<class " ++ squote ++ "NoneType" ++ squote ++ ">"
  | .bool _ => "<class " ++ squote ++ "bool" ++ squote ++ ">"
  | .num q =>
    if q.den = 1 then "<class " ++ squote ++ "int" ++ squote ++ ">"
    else "<class " ++ squote ++ "float" ++ squote ++ ">"
  | .str _ => "<class " ++ squote ++ "str" ++ squote ++ ">"
  | .list _ => "<class " ++ squote ++ "list" ++ squote ++ ">"
  | .dict _ => "<class " ++ squote ++ "dict" ++ squote ++ ">"

/-- `ServiceMonitor.fetch_hive_stats`: given the request outcome and the
current time, the updated state and the returned dict (`{}` on every
failure path). -/
def fetchHiveStats (s : HiveState) (out : FetchOutcome) (now : Nat) : HiveState × JVal :=
  match out with
  | .jsonError m => ({ s with hive_stats_error := some ("JSON error: " ++ pyTake m 20) }, .dict [])
  | .urlError m => ({ s with hive_stats_error := some ("urllib: " ++ pyTake m 25) }, .dict [])
  | .ok data =>
    match data with
    | .dict kvs =>
      if (pyGet kvs "total_subscribers").isSome then
        ({ s with hive_stats := data, last_hive_stats_fetch := some now,
                  hive_stats_error := none }, data)
      else if kvs.length > 0 then
        match findNestedStats kvs with
        | some v =>
          ({ s with hive_stats := v, last_hive_stats_fetch := some now,
                    hive_stats_error := none }, v)
        | none =>
          let msg := "No total_subscribers. Keys: " ++ pyStrKeys ((kvs.map Prod.fst).take 3)
          ({ s with hive_stats_error := some msg }, .dict [])
      else
        ({ s with hive_stats_error := some "Empty dict response" }, .dict [])
    | .list (x :: _) =>
      match x with
      | .dict ikvs =>
        if (pyGet ikvs "total_subscribers").isSome then
          ({ s with hive_stats := x, last_hive_stats_fetch := some now,
                    hive_stats_error := none }, x)
        else
          ({ s with hive_stats_error := some "List but no stats in first item" }, .dict [])
      | _ => ({ s with hive_stats_error := some "List but no stats in first item" }, .dict [])
    | _ => ({ s with hive_stats_error := some ("Response type: " ++ pyTypeRepr data) }, .dict [])

/-- The staleness test in `create_hive_stats_panel` (lines 19–20):
refresh when no fetch timestamp exists or the cached data is older than
300 seconds. -/
def statsRefreshDue (last_fetch : Option Nat) (now : Nat) : Bool :=
  match last_fetch with
  | none => true
  | some t => ((now : Int) - (t : Int)) > 300

/-- The fetch gate of `create_hive_stats_panel` (lines 18–21): calls
`fetch_hive_stats` only when `statsRefreshDue`; returns the resulting
state and how many fetches (network calls) were performed. -/
def panelMaybeRefreshStats (s : HiveState) (out : FetchOutcome) (now : Nat) : HiveState × Nat :=
  if statsRefreshDue s.last_hive_stats_fetch now then
    ((fetchHiveStats s out now).1, 1)
  else (s, 0)

/-! ## Config loader (`src/config.py`) -/

/-- Drops leading occurrences of a character. -/
def dropLeadingChar (c : Char) : List Char → List Char
  | [] => []
  | x :: xs => if x = c then dropLeadingChar c xs else x :: xs

/-- Python `s.strip(c)` for a single strip character: removes all leading
and trailing occurrences. -/
def stripChar (c : Char) (s : String) : String :=
  String.mk ((dropLeadingChar c (dropLeadingChar c s.toList).reverse).reverse)

/-- Python dict assignment `config[key] = value`: overwrite in place or
append. -/
def dictSet (kvs : List (String × String)) (k v : String) : List (String × String) :=
  match kvs with
  | [] => [(k, v)]
  | (k2, v2) :: rest => if k2 = k then (k2, v) :: rest else (k2, v2) :: dictSet rest k v

/-- `load_monorepo_config` over the lines of `skatehive.config`: skip
blank lines and comments, parse `KEY=value` at the first `=`, strip
whitespace and surrounding quote characters from the value.  Total: a
malformed line contributes nothing and nothing raises. -/
def loadMonorepoConfig (lines : List String) : List (String × String) :=
  lines.foldl (fun config rawLine =>
    let line := pyStrip rawLine
    if line = "" || listPrefix "#".toList line.toList then config
    else
      let kv := splitAtChar (fun c => c == '=') line.toList
      match kv.2 with
      | none => config
      | some rest =>
        let key := pyStrip (String.mk kv.1)
        let value := stripChar (Char.ofNat 39) (stripChar '"' (pyStrip (String.mk rest)))
        dictSet config key value) []

/-- `OTHER_NODES`: split the comma-separated string, strip entries, keep
the nonempty ones. -/
def otherNodesOf (s : String) : List String :=
  ((pySplitChar s (Char.ofNat 44)).map pyStrip).filter (fun n => n != "")

/-- An exception escaping the module-level config code. -/
inductive ConfigError where
  | valueError (lit : String)
deriving DecidableEq, Repr

/-- Python `str.title()` of an id with dashes replaced by spaces, as in
`node_id.replace('-', ' ').title()`. -/
def pythonTitle (s : String) : String :=
  let step := fun (acc : List Char × Bool) (c : Char) =>
    let c2 := if c.isAlpha then (if acc.2 then c.toLower else c.toUpper) else c
    (c2 :: acc.1, c.isAlpha)
  String.mk ((s.toList.foldl step ([], false)).1.reverse)

/-- Python dict lookup in the node registry. -/
def lookupNode : List (String × NodeInfo) → String → Option NodeInfo
  | [], _ => none
  | (k, v) :: rest, n => if k = n then some v else lookupNode rest n

/-- The `for node_str in OTHER_NODES` loop of `src/config.py`
(lines 108–124).  Strings with fewer than two colon-separated fields are
skipped; a fifth field is passed to `int()`, whose `ValueError`
propagates (modelled as `Except.error`) and aborts the module load. -/
def addOtherNodes (default_instagram_port video_transcoder_port : Int) :
    List String → List (String × NodeInfo) → Except ConfigError (List (String × NodeInfo))
  | [], reg => .ok reg
  | node_str :: rest, reg =>
    let parts := pySplitChar node_str (Char.ofNat 58)
    if parts.length ≥ 2 then
      let node_id := parts.getD 0 ""
      let hostname := parts.getD 1 ""
      let role := if parts.length > 2 then parts.getD 2 "" else "secondary"
      let lan_ip := if parts.length > 3 then some (parts.getD 3 "") else none
      let portRes : Except ConfigError Int :=
        if parts.length > 4 then
          match pythonInt (parts.getD 4 "") with
          | some p => .ok p
          | none => .error (.valueError (parts.getD 4 ""))
        else .ok default_instagram_port
      match portRes with
      | .error e => .error e
      | .ok instagram_port =>
        let reg2 :=
          if (lookupNode reg node_id).isSome then reg
          else
            reg ++ [(node_id,
              { name := pythonTitle (pyReplace node_id "-" " "),
                hostname := hostname, role := role, lan_ip := lan_ip,
                instagram_port := some instagram_port,
                video_port := some video_transcoder_port })]
        addOtherNodes default_instagram_port video_transcoder_port rest reg2
    else addOtherNodes default_instagram_port video_transcoder_port rest reg

/-! ## Helper lemmas -/

/-- The JSON value equal (under Python ==) to an expected value. -/
def evalToJ : EVal → JVal
  | .str s => .str s
  | .bool b => .bool b
  | .none_ => .null

theorem pyEqE_evalToJ (v : EVal) : pyEqE (evalToJ v) v = true := by
  cases v <;> simp [evalToJ, pyEqE]

theorem lookupService_mem {l : List (String × Service)} {n : String} {svc : Service}
    (h : lookupService l n = some svc) : (n, svc) ∈ l := by
  induction l with
  | nil => simp [lookupService] at h
  | cons p rest ih =>
    obtain ⟨k, v⟩ := p
    by_cases hk : k = n
    · subst hk
      simp [lookupService] at h
      simp [h]
    · simp [lookupService, hk] at h
      exact List.mem_cons_of_mem _ (ih h)

theorem mem_buildServices_json_key
    {th igp vdp : String} {ip vp : Int} {nodes : List (String × NodeInfo)}
    {p : String × Service} (hp : p ∈ buildServices th igp vdp ip vp nodes) :
    p.2.check_type = "json_key" ∧ p.2.expected_key.isSome = true := by
  rw [buildServices, List.mem_append] at hp
  rcases hp with hp | hp
  · by_cases hth : (th != "") = true
    · rw [if_pos hth, List.mem_cons, List.mem_singleton] at hp
      rcases hp with hp | hp <;> subst hp <;> exact ⟨rfl, rfl⟩
    · rw [if_neg hth] at hp
      simp at hp
  · induction nodes with
    | nil => simp at hp
    | cons nd rest ih =>
      simp only [List.foldr] at hp
      by_cases hcond : (nd.2.hostname != "" && nd.2.hostname != th) = true
      · rw [if_pos hcond, List.mem_cons, List.mem_cons] at hp
        rcases hp with hp | hp | hp
        · subst hp; exact ⟨rfl, rfl⟩
        · subst hp; exact ⟨rfl, rfl⟩
        · exact ih hp
      · rw [if_neg hcond] at hp
        exact ih hp

/-! ## Claim theorems -/

/-- C8: given the Ookla-shaped output with download bandwidth 12500000
bytes/s, upload bandwidth 6250000 bytes/s and ping latency 15.2, the
speed-test runner stores download = 100 Mbps, upload = 50 Mbps,
ping = 15.2 ms, timestamps the run, and sets the status to Complete. -/
theorem speedtest_ookla_normalization :
    runSpeedTest {} [CmdOutcome.exited 0 (.ok (.dict
        [("download", .dict [("bandwidth", .num 12500000)]),
         ("upload", .dict [("bandwidth", .num 6250000)]),
         ("ping", .dict [("latency", .num 15.2)])])) ""] 42 =
      { internet_speed := ⟨.num 100, .num 50, .num 15.2⟩,
        last_speed_test := some 42,
        speedtest_status := "Complete",
        speedtest_error := none } := by
  have step : runSpeedTest {} [CmdOutcome.exited 0 (.ok (.dict
        [("download", .dict [("bandwidth", .num 12500000)]),
         ("upload", .dict [("bandwidth", .num 6250000)]),
         ("ping", .dict [("latency", .num 15.2)])])) ""] 42 =
      { internet_speed := ⟨.num (12500000 * 8 / 1000000), .num (6250000 * 8 / 1000000), .num 15.2⟩,
        last_speed_test := some 42,
        speedtest_status := "Complete",
        speedtest_error := none } := rfl
  rw [step]
  norm_num [SpeedState.mk.injEq, SpeedPayload.mk.injEq, JVal.num.injEq]

/-- C4: the community-stats refresh gate in `create_hive_stats_panel`:
with a cached timestamp 200 seconds old no fetch is performed (and the
state is untouched); with no timestamp, or a timestamp 400 seconds old,
exactly one fetch is performed. -/
theorem stats_refresh_staleness_gate (s : HiveState) (out : FetchOutcome) (t now : Nat) :
    (s.last_hive_stats_fetch = some t →
      panelMaybeRefreshStats s out (t + 200) = (s, 0) ∧
      (panelMaybeRefreshStats s out (t + 400)).2 = 1) ∧
    (s.last_hive_stats_fetch = none → (panelMaybeRefreshStats s out now).2 = 1) := by
  constructor
  · intro h
    have h200 : statsRefreshDue s.last_hive_stats_fetch (t + 200) = false := by
      rw [h]; simp only [statsRefreshDue]
      rw [decide_eq_false_iff_not]
      push_cast
      omega
    have h400 : statsRefreshDue s.last_hive_stats_fetch (t + 400) = true := by
      rw [h]; simp only [statsRefreshDue]
      rw [decide_eq_true_eq]
      push_cast
      omega
    exact ⟨by simp [panelMaybeRefreshStats, h200], by simp [panelMaybeRefreshStats, h400]⟩
  · intro h
    simp [panelMaybeRefreshStats, statsRefreshDue, h]

/-- C4 witness: with a timestamp 200 seconds old the gate performs no
fetch and leaves the state alone; at 400 seconds, and with no timestamp,
it performs exactly one fetch. -/
theorem stats_refresh_staleness_gate_witness :
    panelMaybeRefreshStats { last_hive_stats_fetch := some 100 } (.ok (.dict [])) 300 =
        ({ last_hive_stats_fetch := some 100 }, 0) ∧
    (panelMaybeRefreshStats { last_hive_stats_fetch := some 100 } (.ok (.dict [])) 500).2 = 1 ∧
    (panelMaybeRefreshStats {} (.ok (.dict [])) 0).2 = 1 :=
  ⟨(stats_refresh_staleness_gate { last_hive_stats_fetch := some 100 } (.ok (.dict [])) 100 0).1 rfl |>.1,
   (stats_refresh_staleness_gate { last_hive_stats_fetch := some 100 } (.ok (.dict [])) 100 0).1 rfl |>.2,
   (stats_refresh_staleness_gate {} (.ok (.dict [])) 0 0).2 rfl⟩

/-- C9: every execution path of `fetch_hive_stats` either leaves both the
cached payload and the fetch timestamp untouched (failed fetch), or sets
the timestamp to the current time, the cached payload to exactly the
returned payload, and clears the error, all in the same step. -/
theorem fetch_hive_stats_atomic (s : HiveState) (out : FetchOutcome) (now : Nat) :
    ((fetchHiveStats s out now).1.last_hive_stats_fetch = s.last_hive_stats_fetch ∧
     (fetchHiveStats s out now).1.hive_stats = s.hive_stats) ∨
    ((fetchHiveStats s out now).1.last_hive_stats_fetch = some now ∧
     (fetchHiveStats s out now).1.hive_stats = (fetchHiveStats s out now).2 ∧
     (fetchHiveStats s out now).1.hive_stats_error = none) := by
  rcases out with m | m | data
  · left; simp [fetchHiveStats]
  · left; simp [fetchHiveStats]
  · rcases data with _ | b | q | st | xs | kvs
    · left; simp [fetchHiveStats]
    · left; simp [fetchHiveStats]
    · left; simp [fetchHiveStats]
    · left; simp [fetchHiveStats]
    · rcases xs with _ | ⟨x, rest⟩
      · left; simp [fetchHiveStats]
      · rcases x with _ | b | q | st | xs2 | ikvs
        · left; simp [fetchHiveStats]
        · left; simp [fetchHiveStats]
        · left; simp [fetchHiveStats]
        · left; simp [fetchHiveStats]
        · left; simp [fetchHiveStats]
        · by_cases hm : (pyGet ikvs "total_subscribers").isSome
          · right; simp [fetchHiveStats, hm]
          · left; simp [fetchHiveStats, hm]
    · by_cases hm : (pyGet kvs "total_subscribers").isSome
      · right; simp [fetchHiveStats, hm]
      · by_cases hlen : kvs.length > 0
        · rcases hnest : findNestedStats kvs with _ | v
          · left; simp [fetchHiveStats, hm, hlen, hnest]
          · right; simp [fetchHiveStats, hm, hlen, hnest]
        · left; simp [fetchHiveStats, hm, hlen]

/-- C1 counterexample: the `json-key-equality` comparison is Python `==`,
not an exact type-and-value match.  For the registry's `video-worker`
service (expected key `ok`, expected boolean value true), a 200 body in
which `ok` is the number 1 — a value of a different JSON type than the
expected boolean — yields Healthy, where the claim requires Down. -/
theorem json_key_python_equality_counterexample :
    checkServiceHealth
        (buildServices "minivlad.tail83ea3e.ts.net" "/instagram" "/video" 6666 8081 [])
        "video-worker"
        { http := .response 200 (.ok (.dict [("ok", .num 1)])) 12 } =
      .ok (some ⟨"🟢 Healthy", "12ms", "Unknown", "JSON OK: ok=1"⟩) := rfl

/-- C2 counterexample: a configured peer string whose fifth
colon-separated field is not an integer makes the `OTHER_NODES` loop
raise `ValueError` (from `int(parts[4])`), aborting config loading
instead of skipping the entry. -/
theorem other_nodes_nonint_port_raises :
    addOtherNodes 6666 8081 ["nodeA:hostA.example.net:secondary:10.0.0.5:notaport"] [] =
      .error (.valueError "notaport") := rfl

/-- C5 counterexample: an error message containing "timeout" does not
always yield detail "Connection timeout": the SSL check runs first, so a
local service failing with "SSL handshake timeout" gets detail
"SSL error". -/
theorem request_error_ssl_timeout_counterexample :
    strContainsSub "SSL handshake timeout" "timeout" = true ∧
    checkServiceHealthSvc
        { check_type := "json_key", expected_key := some "ok", expected_value := .bool true }
        { http := .requestError "SSL handshake timeout" } =
      .ok (some ⟨"🔴 Down", "N/A", "N/A", "SSL error"⟩) :=
  ⟨rfl, rfl⟩

/-- C10: the registry lookup `self.services[service_name]` precedes the
`try` block of `check_service_health`, so a name that is not a registry
key raises `KeyError` in every environment; every registered name (the
registry holds only `json_key` services) admits an environment in which
the probe returns a status/detail result. -/
theorem unregistered_service_keyerror
    (th igp vdp : String) (ip vp : Int) (nodes : List (String × NodeInfo)) (name : String) :
    (lookupService (buildServices th igp vdp ip vp nodes) name = none →
      ∀ env, checkServiceHealth (buildServices th igp vdp ip vp nodes) name env =
        .error (.keyError name)) ∧
    (∀ svc, lookupService (buildServices th igp vdp ip vp nodes) name = some svc →
      ∃ env r, checkServiceHealth (buildServices th igp vdp ip vp nodes) name env =
        .ok (some r)) := by
  constructor
  · intro h env
    simp [checkServiceHealth, h]
  · intro svc h
    obtain ⟨hct, hkey⟩ := mem_buildServices_json_key (lookupService_mem h)
    rw [Option.isSome_iff_exists] at hkey
    obtain ⟨k, hk⟩ := hkey
    refine ⟨{ http := .response 200 (.ok (.dict [(k, evalToJ svc.expected_value)])) 0 },
      ⟨"🟢 Healthy", "0ms", "Unknown", "JSON OK: " ++ k ++ "=" ++ pyStr (evalToJ svc.expected_value)⟩,
      ?_⟩
    have hct2 : svc.check_type = "json_key" := hct
    have hk2 : svc.expected_key = some k := hk
    simp only [checkServiceHealth, h]
    simp [checkServiceHealthSvc, hct2, jsonKeyCheck, hk2, pyGet, pyEqE_evalToJ]
    rfl

theorem runSpeedTestGo_all_fail (now : Nat) (cmds : List CmdOutcome) :
    ∀ s : SpeedState, (∀ c ∈ cmds, outcomeSucceeds c = false) →
      (runSpeedTestGo now cmds s).speedtest_status = "Failed" ∧
      errFalsy (runSpeedTestGo now cmds s).speedtest_error = false ∧
      (runSpeedTestGo now cmds s).internet_speed = s.internet_speed ∧
      (runSpeedTestGo now cmds s).last_speed_test = s.last_speed_test := by
  induction cmds with
  | nil =>
    intro s _
    simp only [runSpeedTestGo]
    by_cases he : errFalsy s.speedtest_error = true
    · rw [if_pos he]
      exact ⟨rfl, rfl, rfl, rfl⟩
    · rw [if_neg he]
      simp only [Bool.not_eq_true] at he
      exact ⟨rfl, he, rfl, rfl⟩
  | cons c rest ih =>
    intro s h
    have hc := h c (List.mem_cons_self c rest)
    have hrest : ∀ c2 ∈ rest, outcomeSucceeds c2 = false :=
      fun c2 hc2 => h c2 (List.mem_cons_of_mem c hc2)
    cases c with
    | fileNotFound => simpa [runSpeedTestGo] using ih s hrest
    | execError m =>
      simpa [runSpeedTestGo] using ih { s with speedtest_error := some m } hrest
    | timedOut =>
      simpa [runSpeedTestGo] using
        ih { s with speedtest_error := some "Test timeout (>2min)" } hrest
    | exited rc out stderrRaw =>
      by_cases hrc : (rc == 0) = true
      · cases out with
        | error e =>
          simpa [runSpeedTestGo, hrc] using
            ih { s with speedtest_error := some ("JSON parse error: " ++ e) } hrest
        | ok data =>
          have hpe : ∃ e, parseSpeedData data = .error e := by
            simp only [outcomeSucceeds, hrc, Bool.true_and] at hc
            cases hps : parseSpeedData data with
            | ok r => rw [hps] at hc; simp [Except.toBool] at hc
            | error e => exact ⟨e, rfl⟩
          obtain ⟨e, hps⟩ := hpe
          simpa [runSpeedTestGo, hrc, hps] using
            ih { s with speedtest_error := some ("JSON parse error: " ++ speedExcText e) } hrest
      · simp only [runSpeedTestGo]
        rw [if_neg hrc]
        split
        · exact ih s hrest
        · split
          · simpa using ih { s with speedtest_error := some "Connection timeout" } hrest
          · split
            · split
              · simpa using ih _ hrest
              · simpa using ih { s with speedtest_error := some "Network error" } hrest
            · simpa using ih _ hrest

/-- C3: if every speed-test candidate command fails (none reaches the
success return), the phase becomes Failed, the recorded error is neither
absent nor the empty string, and the previously cached measurement and
timestamp are left unchanged. -/
theorem speedtest_all_fail (s : SpeedState) (cmds : List CmdOutcome) (now : Nat)
    (h : ∀ c ∈ cmds, outcomeSucceeds c = false) :
    (runSpeedTest s cmds now).speedtest_status = "Failed" ∧
    errFalsy (runSpeedTest s cmds now).speedtest_error = false ∧
    (runSpeedTest s cmds now).internet_speed = s.internet_speed ∧
    (runSpeedTest s cmds now).last_speed_test = s.last_speed_test := by
  simpa [runSpeedTest] using
    runSpeedTestGo_all_fail now cmds
      { s with speedtest_status := "Running test...", speedtest_error := none } h

/-- C3 witness: with all five candidate binaries absent, a cached
Complete measurement survives untouched while the phase goes to Failed
with a non-empty error. -/
theorem speedtest_all_fail_witness :
    (runSpeedTest
        { internet_speed := ⟨.num 100, .num 50, .num 15.2⟩, last_speed_test := some 7,
          speedtest_status := "Complete" }
        (List.replicate 5 .fileNotFound) 42).speedtest_status = "Failed" ∧
    errFalsy (runSpeedTest
        { internet_speed := ⟨.num 100, .num 50, .num 15.2⟩, last_speed_test := some 7,
          speedtest_status := "Complete" }
        (List.replicate 5 .fileNotFound) 42).speedtest_error = false ∧
    (runSpeedTest
        { internet_speed := ⟨.num 100, .num 50, .num 15.2⟩, last_speed_test := some 7,
          speedtest_status := "Complete" }
        (List.replicate 5 .fileNotFound) 42).internet_speed =
      SpeedPayload.mk (.num 100) (.num 50) (.num 15.2) ∧
    (runSpeedTest
        { internet_speed := ⟨.num 100, .num 50, .num 15.2⟩, last_speed_test := some 7,
          speedtest_status := "Complete" }
        (List.replicate 5 .fileNotFound) 42).last_speed_test = some 7 :=
  speedtest_all_fail
    { internet_speed := ⟨.num 100, .num 50, .num 15.2⟩, last_speed_test := some 7,
      speedtest_status := "Complete" }
    (List.replicate 5 .fileNotFound) 42 (by decide)

/-- Whether the tailscale status command itself failed (timeout, spawn
error, nonzero exit, or unparseable stdout). -/
def tailscaleCmdFailed : TailscaleCmd → Bool
  | .timedOut => true
  | .excOther _ => true
  | .ran rc out =>
    rc != 0 ||
      (match out with
       | .error _ => true
       | .ok _ => false)

/-- The peer map items seen by `check_tailscale_device` when the status
command exits 0 with a JSON dict whose `Peer` value is a dict (or
absent, giving the empty map). -/
def tailscalePeerItems : TailscaleCmd → Option (List (String × JVal))
  | .ran rc (.ok (.dict kvs)) =>
    if rc = 0 then
      match pyGetD kvs "Peer" (.dict []) with
      | .dict ps => some ps
      | _ => none
    else none
  | _ => none

theorem checkTailscaleDevice_offline (cmd : TailscaleCmd) (dn : Option String)
    (h : tailscaleCmdFailed cmd = true
       ∨ (∃ ps, tailscalePeerItems cmd = some ps ∧ findPeerLoop ps dn = .ok none)
       ∨ (∃ ps ikvs, tailscalePeerItems cmd = some ps ∧
            findPeerLoop ps dn = .ok (some ikvs) ∧
            pyTruthy (pyGetD ikvs "Online" (.bool false)) = false)) :
    (checkTailscaleDevice cmd dn).online = false := by
  cases cmd with
  | timedOut => rfl
  | excOther m => rfl
  | ran rc out =>
    by_cases hrc : (rc != 0) = true
    · simp [checkTailscaleDevice, hrc]
    · have hrc0 : rc = 0 := by
        simp only [Bool.not_eq_true, bne_eq_false_iff_eq] at hrc
        exact hrc
      subst hrc0
      cases out with
      | error e => simp [checkTailscaleDevice]
      | ok data =>
        rcases h with h | h | h
        · simp [tailscaleCmdFailed] at h
        · obtain ⟨ps, hps, hfind⟩ := h
          cases data with
          | dict kvs =>
            have hpeer : ∃ pkvs, pyGetD kvs "Peer" (.dict []) = .dict pkvs ∧ ps = pkvs := by
              simp only [tailscalePeerItems, if_pos rfl] at hps
              cases hpv : pyGetD kvs "Peer" (.dict []) <;>
                  (rw [hpv] at hps; simp at hps)
              exact ⟨_, rfl, hps.symm⟩
            obtain ⟨pkvs, hpv, rfl⟩ := hpeer
            simp [checkTailscaleDevice, hpv, hfind]
          | null => simp [tailscalePeerItems] at hps
          | bool b => simp [tailscalePeerItems] at hps
          | num q => simp [tailscalePeerItems] at hps
          | str st => simp [tailscalePeerItems] at hps
          | list xs => simp [tailscalePeerItems] at hps
        · obtain ⟨ps, ikvs, hps, hfind, honline⟩ := h
          cases data with
          | dict kvs =>
            have hpeer : ∃ pkvs, pyGetD kvs "Peer" (.dict []) = .dict pkvs ∧ ps = pkvs := by
              simp only [tailscalePeerItems, if_pos rfl] at hps
              cases hpv : pyGetD kvs "Peer" (.dict []) <;>
                  (rw [hpv] at hps; simp at hps)
              exact ⟨_, rfl, hps.symm⟩
            obtain ⟨pkvs, hpv, rfl⟩ := hpeer
            simp [checkTailscaleDevice, hpv, hfind, honline]
          | null => simp [tailscalePeerItems] at hps
          | bool b => simp [tailscalePeerItems] at hps
          | num q => simp [tailscalePeerItems] at hps
          | str st => simp [tailscalePeerItems] at hps
          | list xs => simp [tailscalePeerItems] at hps

/-- C6: for a `tailscale_device` (mesh-peer-presence) service, if the
mesh peer is unreachable — the status command failed, the peer is not in
the peer list, or the peer is listed but not online — then
`check_service_health` returns status Offline regardless of the HTTP
probe outcome, including a successful HTTP 200 response. -/
theorem mesh_unreachable_short_circuits (svc : Service) (env : Env)
    (hct : svc.check_type = "tailscale_device")
    (h : tailscaleCmdFailed env.ts = true
       ∨ (∃ ps, tailscalePeerItems env.ts = some ps ∧
            findPeerLoop ps svc.tailscale_name = .ok none)
       ∨ (∃ ps ikvs, tailscalePeerItems env.ts = some ps ∧
            findPeerLoop ps svc.tailscale_name = .ok (some ikvs) ∧
            pyTruthy (pyGetD ikvs "Online" (.bool false)) = false)) :
    checkServiceHealthSvc svc env =
      .ok (some ⟨"🔴 Offline", "N/A", "N/A",
        "Tailscale device offline: " ++ (checkTailscaleDevice env.ts svc.tailscale_name).status⟩) := by
  have hoff := checkTailscaleDevice_offline env.ts svc.tailscale_name h
  cases henv : env.http with
  | response code body ems => simp [checkServiceHealthSvc, henv, hct, hoff]
  | requestError msg => simp [checkServiceHealthSvc, henv, hct, hoff]

/-- C6 witness: a peer listed with Online = false forces Offline even
though the HTTP probe returned 200 with a JSON body. -/
theorem mesh_unreachable_short_circuits_witness :
    checkServiceHealthSvc
        { check_type := "tailscale_device", tailscale_name := some "vladsberry" }
        { http := .response 200 (.ok (.dict [])) 3,
          ts := .ran 0 (.ok (.dict [("Peer", .dict
            [("p1", .dict [("HostName", .str "vladsberry"), ("Online", .bool false)])])])) } =
      .ok (some ⟨"🔴 Offline", "N/A", "N/A", "Tailscale device offline: offline"⟩) :=
  mesh_unreachable_short_circuits
    { check_type := "tailscale_device", tailscale_name := some "vladsberry" }
    { http := .response 200 (.ok (.dict [])) 3,
      ts := .ran 0 (.ok (.dict [("Peer", .dict
        [("p1", .dict [("HostName", .str "vladsberry"), ("Online", .bool false)])])])) }
    rfl
    (Or.inr (Or.inr ⟨[("p1", .dict [("HostName", .str "vladsberry"), ("Online", .bool false)])],
      [("HostName", .str "vladsberry"), ("Online", .bool false)], rfl, rfl, rfl⟩))

/-- Whether the stats payload matches one of the three recognized shapes
(marker at top level; marker in a dict one level down; marker in the
first element of a non-empty list). -/
def statsShapeMatches : JVal → Bool
  | .dict kvs => (pyGet kvs "total_subscribers").isSome || (findNestedStats kvs).isSome
  | .list (x :: _) =>
    (match x with
     | .dict ikvs => (pyGet ikvs "total_subscribers").isSome
     | _ => false)
  | _ => false

/-- C7: the stats fetcher prefers the top-level shape, then the first
dict one nesting level down containing the marker, then the first
element of a non-empty list; when no shape matches, a diagnostic error
is recorded (for a non-empty dict, naming the first up-to-three observed
keys) and the cached state is untouched; the function is total, so no
exception propagates. -/
theorem hive_stats_shape_selection (s : HiveState) (now : Nat) (data : JVal) :
    (∀ kvs, data = .dict kvs → (pyGet kvs "total_subscribers").isSome = true →
      fetchHiveStats s (.ok data) now =
        ({ s with hive_stats := data, last_hive_stats_fetch := some now,
                  hive_stats_error := none }, data)) ∧
    (∀ kvs v, data = .dict kvs → (pyGet kvs "total_subscribers").isSome = false →
      findNestedStats kvs = some v →
      fetchHiveStats s (.ok data) now =
        ({ s with hive_stats := v, last_hive_stats_fetch := some now,
                  hive_stats_error := none }, v)) ∧
    (∀ x xs ikvs, data = .list (x :: xs) → x = .dict ikvs →
      (pyGet ikvs "total_subscribers").isSome = true →
      fetchHiveStats s (.ok data) now =
        ({ s with hive_stats := x, last_hive_stats_fetch := some now,
                  hive_stats_error := none }, x)) ∧
    (statsShapeMatches data = false →
      (fetchHiveStats s (.ok data) now).1.hive_stats_error.isSome = true ∧
      (fetchHiveStats s (.ok data) now).1.hive_stats = s.hive_stats ∧
      (fetchHiveStats s (.ok data) now).1.last_hive_stats_fetch = s.last_hive_stats_fetch ∧
      (∀ kvs, data = .dict kvs → kvs ≠ [] →
        (fetchHiveStats s (.ok data) now).1.hive_stats_error =
          some ("No total_subscribers. Keys: " ++ pyStrKeys ((kvs.map Prod.fst).take 3)))) := by
  refine ⟨?_, ?_, ?_, ?_⟩
  · rintro kvs rfl hm
    simp [fetchHiveStats, hm]
  · rintro kvs v rfl hm hnest
    have hlen : kvs.length > 0 := by
      cases kvs with
      | nil => simp [findNestedStats] at hnest
      | cons a l => simp
    simp [fetchHiveStats, hm, hlen, hnest]
  · rintro x xs ikvs rfl rfl hm
    simp [fetchHiveStats, hm]
  · intro hno
    rcases data with _ | b | q | st | xs | kvs
    · exact ⟨rfl, rfl, rfl, by rintro kvs ⟨⟩⟩
    · exact ⟨rfl, rfl, rfl, by rintro kvs ⟨⟩⟩
    · exact ⟨rfl, rfl, rfl, by rintro kvs ⟨⟩⟩
    · exact ⟨rfl, rfl, rfl, by rintro kvs ⟨⟩⟩
    · rcases xs with _ | ⟨x, rest⟩
      · exact ⟨rfl, rfl, rfl, by rintro kvs ⟨⟩⟩
      · rcases x with _ | b | q | st | xs2 | ikvs
        · exact ⟨rfl, rfl, rfl, by rintro kvs ⟨⟩⟩
        · exact ⟨rfl, rfl, rfl, by rintro kvs ⟨⟩⟩
        · exact ⟨rfl, rfl, rfl, by rintro kvs ⟨⟩⟩
        · exact ⟨rfl, rfl, rfl, by rintro kvs ⟨⟩⟩
        · exact ⟨rfl, rfl, rfl, by rintro kvs ⟨⟩⟩
        · simp only [statsShapeMatches] at hno
          refine ⟨?_, ?_, ?_, by rintro kvs ⟨⟩⟩ <;> simp [fetchHiveStats, hno]
    · simp only [statsShapeMatches, Bool.or_eq_false_iff] at hno
      obtain ⟨hm2, hnest⟩ := hno
      cases hfn : findNestedStats kvs with
      | some v => rw [hfn] at hnest; simp at hnest
      | none =>
        by_cases hlen : kvs.length > 0
        · refine ⟨?_, ?_, ?_, ?_⟩
          · simp [fetchHiveStats, hm2, hlen, hfn]
          · simp [fetchHiveStats, hm2, hlen, hfn]
          · simp [fetchHiveStats, hm2, hlen, hfn]
          · rintro kvs2 h hne
            cases h
            simp [fetchHiveStats, hm2, hlen, hfn]
        · have hkvs : kvs = [] := by
            cases kvs with
            | nil => rfl
            | cons a l => simp at hlen
          refine ⟨?_, ?_, ?_, ?_⟩
          · simp [fetchHiveStats, hm2, hlen]
          · simp [fetchHiveStats, hm2, hlen]
          · simp [fetchHiveStats, hm2, hlen]
          · rintro kvs2 h hne
            cases h
            exact absurd hkvs hne

/-- C7 witness: a top-level payload is taken as-is; a four-key payload
with no marker anywhere records a diagnostic naming its first three
keys. -/
theorem hive_stats_shape_selection_witness :
    fetchHiveStats {} (.ok (.dict [("total_subscribers", .num 120), ("total_posts", .num 3)])) 9 =
      ({ hive_stats := .dict [("total_subscribers", .num 120), ("total_posts", .num 3)],
         last_hive_stats_fetch := some 9, hive_stats_error := none },
       .dict [("total_subscribers", .num 120), ("total_posts", .num 3)]) ∧
    (fetchHiveStats {} (.ok (.dict
        [("alpha", .num 1), ("beta", .num 2), ("gamma", .num 3), ("delta", .num 4)])) 9).1.hive_stats_error =
      some "No total_subscribers. Keys: ['alpha', 'beta', 'gamma']" :=
  ⟨(hive_stats_shape_selection {} 9
        (.dict [("total_subscribers", .num 120), ("total_posts", .num 3)])).1 _ rfl rfl,
   ((hive_stats_shape_selection {} 9
        (.dict [("alpha", .num 1), ("beta", .num 2), ("gamma", .num 3), ("delta", .num 4)])).2.2.2
      rfl).2.2.2 _ rfl (List.cons_ne_nil _ _)⟩

/-- C1 (amended): for a `json_key` service, a 200 response whose body is
a JSON object is judged by Python `==` (a boolean expectation also
matches the numerically equal number): Healthy on success, otherwise
Down with the observed value (or `missing`) and the expectation in the
detail; a JSON parse failure gives detail exactly `Invalid JSON
response`; a non-200 status gives detail `HTTP <code>`. -/
theorem json_key_equality_amended (svc : Service) (ts : TailscaleCmd) (u : String)
    (code : Int) (body : Except String JVal) (ems : Nat) (k : String)
    (hct : svc.check_type = "json_key") (hkey : svc.expected_key = some k) :
    (code = 200 → ∀ kvs, body = .ok (.dict kvs) →
      (∀ v, pyGet kvs k = some v →
        (pyEqE v svc.expected_value = true →
          checkServiceHealthSvc svc ⟨.response code body ems, ts, u⟩ =
            .ok (some ⟨"🟢 Healthy", toString ems ++ "ms", u,
              "JSON OK: " ++ k ++ "=" ++ pyStr v⟩)) ∧
        (pyEqE v svc.expected_value = false →
          checkServiceHealthSvc svc ⟨.response code body ems, ts, u⟩ =
            .ok (some ⟨"🔴 Down", toString ems ++ "ms", "N/A",
              "JSON fail: " ++ k ++ "=" ++ pyStr v ++
                " (expected " ++ pyStrE svc.expected_value ++ ")"⟩))) ∧
      (pyGet kvs k = none →
        checkServiceHealthSvc svc ⟨.response code body ems, ts, u⟩ =
          .ok (some ⟨"🔴 Down", toString ems ++ "ms", "N/A",
            "JSON fail: " ++ k ++ "=missing (expected " ++ pyStrE svc.expected_value ++ ")"⟩))) ∧
    (code = 200 → ∀ e, body = .error e →
      checkServiceHealthSvc svc ⟨.response code body ems, ts, u⟩ =
        .ok (some ⟨"🔴 Down", toString ems ++ "ms", "N/A", "Invalid JSON response"⟩)) ∧
    (code ≠ 200 →
      checkServiceHealthSvc svc ⟨.response code body ems, ts, u⟩ =
        .ok (some ⟨"🔴 Down", toString ems ++ "ms", "N/A", "HTTP " ++ toString code⟩)) := by
  refine ⟨?_, ?_, ?_⟩
  · rintro rfl kvs rfl
    refine ⟨?_, ?_⟩
    · intro v hv
      refine ⟨?_, ?_⟩ <;> intro heq <;>
        simp [checkServiceHealthSvc, hct, jsonKeyCheck, hkey, hv, heq]
    · intro hv
      simp [checkServiceHealthSvc, hct, jsonKeyCheck, hkey, hv]
  · rintro rfl e rfl
    simp [checkServiceHealthSvc, hct]
  · intro hne
    have hb : (code == 200) = false := by
      simp [hne]
    simp [checkServiceHealthSvc, hct, hb]

/-- C1 witness: the `video-worker` expectation `ok = true` against a 200
body in which `ok` is boolean true yields Healthy. -/
theorem json_key_equality_amended_witness :
    checkServiceHealthSvc
        { check_type := "json_key", expected_key := some "ok", expected_value := .bool true }
        ⟨.response 200 (.ok (.dict [("ok", .bool true)])) 5, .timedOut, "up"⟩ =
      .ok (some ⟨"🟢 Healthy", "5ms", "up", "JSON OK: ok=True"⟩) :=
  (((json_key_equality_amended
      { check_type := "json_key", expected_key := some "ok", expected_value := .bool true }
      .timedOut "up" 200 (.ok (.dict [("ok", .bool true)])) 5 "ok" rfl rfl).1
    rfl _ rfl).1 (.bool true) rfl).1 rfl

/-- C2 (amended): a peer string with fewer than two colon-separated
fields is skipped with the partial registry retained; when every present
fifth field parses as an integer the whole loop completes without
raising; a config-file line with no `=` is skipped with the partial
config retained.  (A fifth field that is not an integer raises
`ValueError`: see the counterexample.) -/
theorem config_parse_tolerance :
    (∀ (d v : Int) (bad : String) (rest : List String) (reg : List (String × NodeInfo)),
      (pySplitChar bad (Char.ofNat 58)).length < 2 →
      addOtherNodes d v (bad :: rest) reg = addOtherNodes d v rest reg) ∧
    (∀ (d v : Int) (strs : List String) (reg : List (String × NodeInfo)),
      (∀ nodeStr ∈ strs, (pySplitChar nodeStr (Char.ofNat 58)).length ≤ 4 ∨
        (pythonInt ((pySplitChar nodeStr (Char.ofNat 58)).getD 4 "")).isSome = true) →
      (addOtherNodes d v strs reg).toBool = true) ∧
    (∀ (pre post : List String) (bad : String),
      (splitAtChar (fun c => c == '=') (pyStrip bad).toList).2 = none →
      loadMonorepoConfig (pre ++ bad :: post) = loadMonorepoConfig (pre ++ post)) := by
  refine ⟨?_, ?_, ?_⟩
  · intro d v bad rest reg hlen
    rw [addOtherNodes, if_neg (by omega)]
  · intro d v strs
    induction strs with
    | nil => intro reg _; rfl
    | cons nodeStr rest ih =>
      intro reg h
      have hhd := h nodeStr (List.mem_cons_self nodeStr rest)
      have hrest : ∀ n2 ∈ rest, (pySplitChar n2 (Char.ofNat 58)).length ≤ 4 ∨
          (pythonInt ((pySplitChar n2 (Char.ofNat 58)).getD 4 "")).isSome = true :=
        fun n2 hn2 => h n2 (List.mem_cons_of_mem nodeStr hn2)
      rw [addOtherNodes]
      by_cases hlen : (pySplitChar nodeStr (Char.ofNat 58)).length ≥ 2
      · rw [if_pos hlen]
        by_cases h4 : (pySplitChar nodeStr (Char.ofNat 58)).length > 4
        · rcases hhd with hle | hsome
          · omega
          · rw [Option.isSome_iff_exists] at hsome
            obtain ⟨p, hp⟩ := hsome
            simp only [if_pos h4, hp]
            exact ih _ hrest
        · simp only [if_neg h4]
          exact ih _ hrest
      · rw [if_neg hlen]
        exact ih _ hrest
  · intro pre post bad hno
    have hstep : ∀ (config : List (String × String)) (rawLine : String),
        (splitAtChar (fun c => c == '=') (pyStrip rawLine).toList).2 = none →
        (if pyStrip rawLine = "" || listPrefix "#".toList (pyStrip rawLine).toList then config
         else
          match (splitAtChar (fun c => c == '=') (pyStrip rawLine).toList).2 with
          | none => config
          | some rest2 =>
            dictSet config (pyStrip (String.mk (splitAtChar (fun c => c == '=') (pyStrip rawLine).toList).1))
              (stripChar (Char.ofNat 39) (stripChar '"' (pyStrip (String.mk rest2))))) = config := by
      intro config rawLine hn
      by_cases hskip : (pyStrip rawLine = "" || listPrefix "#".toList (pyStrip rawLine).toList) = true
      · rw [if_pos hskip]
      · rw [if_neg hskip, hn]
    simp only [loadMonorepoConfig, List.foldl_append, List.foldl_cons]
    congr 1
    exact hstep _ bad hno

/-- C2 witness: a one-field peer string is skipped; a well-formed
five-field peer string raises nothing; a config line with no `=` is
skipped. -/
theorem config_parse_tolerance_witness :
    addOtherNodes 6666 8081 ["solo"] [] = addOtherNodes 6666 8081 [] [] ∧
    (addOtherNodes 6666 8081 ["nodeA:hostA.example.net:primary:10.0.0.5:7777"] []).toBool = true ∧
    loadMonorepoConfig (["A=1"] ++ "garbage line" :: ["B=2"]) =
      loadMonorepoConfig (["A=1"] ++ ["B=2"]) :=
  ⟨config_parse_tolerance.1 6666 8081 "solo" [] [] (by decide),
   config_parse_tolerance.2.1 6666 8081 ["nodeA:hostA.example.net:primary:10.0.0.5:7777"] []
     (by decide),
   config_parse_tolerance.2.2 ["A=1"] ["B=2"] "garbage line" (by decide)⟩

/-- C5 (amended): when the HTTP call raises (for a non-mesh service),
the detail comes from substring checks in priority order — SSL first,
then timeout, then connection — with node-qualified messages for remote
services (`Funnel down`/`Funnel timeout`/`Funnel offline`); an
unrecognized error yields `Network error: <first 30 chars>` locally and
`Unreachable (<node>)` for remote services. -/
theorem request_error_classification_amended (svc : Service) (env : Env) (msg : String)
    (hct : svc.check_type ≠ "tailscale_device") (hh : env.http = .requestError msg) :
    checkServiceHealthSvc svc env =
      .ok (some ⟨"🔴 Down", "N/A", "N/A",
        classifyRequestError msg svc.remote (svc.node_name.getD "Unknown")⟩) ∧
    ((strContainsSub msg "SSL" || strContainsSub msg "ssl") = true →
      classifyRequestError msg svc.remote (svc.node_name.getD "Unknown") =
        if svc.remote then "Funnel down (" ++ svc.node_name.getD "Unknown" ++ ")"
        else "SSL error") ∧
    ((strContainsSub msg "SSL" || strContainsSub msg "ssl") = false →
      strContainsSub (pyLower msg) "timeout" = true →
      classifyRequestError msg svc.remote (svc.node_name.getD "Unknown") =
        if svc.remote then "Funnel timeout (" ++ svc.node_name.getD "Unknown" ++ ")"
        else "Connection timeout") ∧
    ((strContainsSub msg "SSL" || strContainsSub msg "ssl") = false →
      strContainsSub (pyLower msg) "timeout" = false →
      strContainsSub (pyLower msg) "connection" = true →
      classifyRequestError msg svc.remote (svc.node_name.getD "Unknown") =
        if svc.remote then "Funnel offline (" ++ svc.node_name.getD "Unknown" ++ ")"
        else "Connection refused") ∧
    ((strContainsSub msg "SSL" || strContainsSub msg "ssl") = false →
      strContainsSub (pyLower msg) "timeout" = false →
      strContainsSub (pyLower msg) "connection" = false →
      classifyRequestError msg svc.remote (svc.node_name.getD "Unknown") =
        if svc.remote then "Unreachable (" ++ svc.node_name.getD "Unknown" ++ ")"
        else "Network error: " ++ pyTake msg 30) := by
  have hb : (svc.check_type == "tailscale_device") = false := by
    simp [hct]
  refine ⟨?_, ?_, ?_, ?_, ?_⟩
  · simp [checkServiceHealthSvc, hh, hb]
  · intro hssl
    simp [classifyRequestError, hssl]
  · intro hssl htmo
    simp [classifyRequestError, hssl, htmo]
  · intro hssl htmo hcon
    simp [classifyRequestError, hssl, htmo, hcon]
  · intro hssl htmo hcon
    simp [classifyRequestError, hssl, htmo, hcon]

/-- C5 witness: a remote service failing with `connection refused` gets
the node-qualified `Funnel offline` detail. -/
theorem request_error_classification_amended_witness :
    checkServiceHealthSvc
        { check_type := "json_key", remote := true, node_name := some "Mac Mini M4" }
        { http := .requestError "connection refused" } =
      .ok (some ⟨"🔴 Down", "N/A", "N/A", "Funnel offline (Mac Mini M4)"⟩) := by
  have h := request_error_classification_amended
    { check_type := "json_key", remote := true, node_name := some "Mac Mini M4" }
    { http := .requestError "connection refused" } "connection refused" (by decide) rfl
  have h1 := h.1
  rw [h.2.2.2.1 (by decide) (by decide) (by decide)] at h1
  exact h1

/-- C10 witness: a concrete unregistered name raises `KeyError`. -/
theorem unregistered_service_keyerror_witness :
    checkServiceHealth (buildServices "minivlad.tail83ea3e.ts.net" "/instagram" "/video" 6666 8081 [])
        "no-such-service" { http := .requestError "x" } =
      .error (.keyError "no-such-service") :=
  (unregistered_service_keyerror "minivlad.tail83ea3e.ts.net" "/instagram" "/video" 6666 8081 []
      "no-such-service").1 rfl { http := .requestError "x" }

end SkatehiveOps
